import Mathlib

/-!
Verification development for the FairMind room / vote / resolution core.

The definitions below are a shallow embedding of the server-side core:
* the persisted data model (`shared/schema.ts`),
* the persistence layer (`DbStorage` in the storage module),
* the resolution-generation client (`server/services/aiClient.ts`),
* the in-memory rate limiter (`server/middleware/auth.ts`),
* the HTTP route handlers and WebSocket handlers (`server/routes.ts`).

The database is modelled as explicit lists; the external language-model
collaborator is modelled as an oracle giving the outcome of each call
(`AttemptOutcome`); the in-memory connection map is an association list.
Foreign-key constraints declared in `shared/schema.ts` (votes reference an
existing room, resolution and user) are enforced by the embedded insert
operations, mirroring the database rejecting the row.
-/

/-- Room row of `shared/schema.ts` (`rooms` table).  The creation timestamp is
irrelevant to every property below and is omitted; `resolvedAt` is a `Nat`
timestamp. -/
structure Room where
  id : String
  code : String
  createdBy : String
  participant1Id : Option String
  participant2Id : Option String
  status : String
  resolvedAt : Option Nat
  deriving DecidableEq, Repr

/-- Message row (`messages` table). -/
structure Message where
  id : String
  roomId : String
  senderId : String
  text : Option String
  transcript : Option String
  isVoice : Bool
  voiceUrl : Option String
  timestamp : Nat
  deriving DecidableEq, Repr

/-- Resolution row (`resolutions` table). -/
structure Resolution where
  id : String
  roomId : String
  title : String
  description : String
  aiScore : Int
  suggestedBest : Bool
  deriving DecidableEq, Repr

/-- Vote row (`votes` table). -/
structure Vote where
  id : String
  roomId : String
  resolutionId : String
  userId : String
  deriving DecidableEq, Repr

/-- Database state seen by `DbStorage`: users are reduced to their ids (no
other user field matters to the core). -/
structure Storage where
  users : List String
  rooms : List Room
  messages : List Message
  resolutions : List Resolution
  votes : List Vote
  deriving DecidableEq, Repr

/-- Database error: `updateRoomParticipant` throws when the room is absent,
and an insert violating a declared foreign key is rejected by the database. -/
inductive DbErr where
  | roomNotFound
  | fkViolation (field : String)
  deriving DecidableEq, Repr

/-- `DbStorage.getRoomById`. -/
def getRoomById (s : Storage) (id : String) : Option Room :=
  s.rooms.find? (fun r => r.id == id)

/-- `DbStorage.getRoomByCode`. -/
def getRoomByCode (s : Storage) (code : String) : Option Room :=
  s.rooms.find? (fun r => r.code == code)

/-- Slot-assignment logic of `DbStorage.updateRoomParticipant` on one room
row: first empty slot wins, and slot 2 is only filled by an identity different
from the slot-1 occupant. -/
def updateParticipantSlots (r : Room) (participantId : String) : Room :=
  match r.participant1Id with
  | none => { r with participant1Id := some participantId }
  | some p1 =>
    if r.participant2Id = none ∧ p1 ≠ participantId then
      { r with participant2Id := some participantId }
    else r

/-- Helper applying an update to every room row with the given id (the SQL
`update rooms ... where id = roomId`). -/
def mapRoomRows (s : Storage) (roomId : String) (f : Room → Room) : Storage :=
  { s with rooms := s.rooms.map (fun r => if r.id = roomId then f r else r) }

/-- `DbStorage.updateRoomParticipant`: fetch the room (throwing when absent),
then conditionally set one participant slot, deciding from the fetched row. -/
def updateRoomParticipant (s : Storage) (roomId participantId : String) :
    Except DbErr Storage :=
  match getRoomById s roomId with
  | none => .error .roomNotFound
  | some room =>
    match room.participant1Id with
    | none =>
      .ok (mapRoomRows s roomId (fun r => { r with participant1Id := some participantId }))
    | some p1 =>
      if room.participant2Id = none ∧ p1 ≠ participantId then
        .ok (mapRoomRows s roomId (fun r => { r with participant2Id := some participantId }))
      else .ok s

/-- `DbStorage.updateRoomStatus`. -/
def updateRoomStatus (s : Storage) (roomId status : String) (resolvedAt : Option Nat) :
    Storage :=
  mapRoomRows s roomId (fun r => { r with status := status, resolvedAt := resolvedAt })

/-- `DbStorage.getRoomMessages`; messages are kept in timestamp order, so the
`orderBy timestamp` of the query is the identity here. -/
def getRoomMessages (s : Storage) (roomId : String) : List Message :=
  s.messages.filter (fun m => m.roomId == roomId)

/-- `DbStorage.getResolutionById`. -/
def getResolutionById (s : Storage) (id : String) : Option Resolution :=
  s.resolutions.find? (fun r => r.id == id)

/-- `DbStorage.getRoomVotes`. -/
def getRoomVotes (s : Storage) (roomId : String) : List Vote :=
  s.votes.filter (fun v => v.roomId == roomId)

/-- `DbStorage.getUserVote`. -/
def getUserVote (s : Storage) (roomId userId : String) : Option Vote :=
  s.votes.find? (fun v => v.roomId == roomId && v.userId == userId)

/-- `DbStorage.createVote`: the `votes` table declares foreign keys on
`room_id`, `resolution_id` and `user_id`, so the insert is rejected when a
referenced row is absent; the primary key is database-generated. -/
def createVote (s : Storage) (roomId resolutionId userId : String) :
    Except DbErr (Vote × Storage) :=
  if (getRoomById s roomId).isNone then .error (.fkViolation "room_id")
  else if (getResolutionById s resolutionId).isNone then .error (.fkViolation "resolution_id")
  else if !(s.users.contains userId) then .error (.fkViolation "user_id")
  else
    let v : Vote :=
      { id := "vote-" ++ toString s.votes.length, roomId := roomId,
        resolutionId := resolutionId, userId := userId }
    .ok (v, { s with votes := s.votes ++ [v] })

/-- Insert shape for `DbStorage.createResolutions`. -/
structure InsertResolution where
  roomId : String
  title : String
  description : String
  aiScore : Int
  suggestedBest : Bool
  deriving DecidableEq, Repr

/-- `DbStorage.createResolutions`: batch insert, rejected when a `room_id`
foreign key is unsatisfied; primary keys are database-generated. -/
def createResolutions (s : Storage) (items : List InsertResolution) :
    Except DbErr (List Resolution × Storage) :=
  if items.all (fun it => (getRoomById s it.roomId).isSome) then
    let saved := items.enum.map (fun p =>
      { id := "res-" ++ toString (s.resolutions.length + p.1),
        roomId := p.2.roomId, title := p.2.title, description := p.2.description,
        aiScore := p.2.aiScore, suggestedBest := p.2.suggestedBest : Resolution })
    .ok (saved, { s with resolutions := s.resolutions ++ saved })
  else .error (.fkViolation "room_id")

/-- Candidate resolution as produced by the external collaborator
(`AIResolution` in `aiClient.ts`); `suggested_best` is the 0/1 number of the
JSON contract. -/
structure AIResolution where
  id : String
  title : String
  description : String
  ai_score : Int
  suggested_best : Int
  deriving DecidableEq, Repr

/-- `generateFallbackResolutions` of `aiClient.ts`: the fixed deterministic
batch (compromise / trial-period / alternative-perspective). -/
def generateFallbackResolutions : List AIResolution :=
  [ { id := "1", title := "Compromise Solution",
      description := "Both parties meet in the middle by making equal concessions to reach a balanced agreement that addresses core concerns.",
      ai_score := 80, suggested_best := 1 },
    { id := "2", title := "Time-Based Trial",
      description := "Implement one approach for a defined trial period, then evaluate and adjust based on results before committing long-term.",
      ai_score := 70, suggested_best := 0 },
    { id := "3", title := "Alternative Perspective",
      description := "Explore a third option that neither party initially considered, potentially solving the underlying issue differently.",
      ai_score := 65, suggested_best := 0 } ]

/-- Outcome of one call to the external text-generation collaborator, seen
through the control flow of `generateResolutions`:
* `callThrew` — the HTTP call itself threw;
* `noJsonMatch` — the call returned text containing no brace-delimited region
  (the regex found no JSON object);
* `parseThrew` — a JSON-looking region was found but parsing it threw;
* `parsedOk rs` — a JSON object parsed, carrying candidate list `rs` (the
  code performs no validation of the parsed structure). -/
inductive AttemptOutcome where
  | callThrew
  | noJsonMatch
  | parseThrew
  | parsedOk (rs : List AIResolution)
  deriving DecidableEq, Repr

/-- Result of `generateResolutions`: the candidate batch returned to the
caller, and the temperatures (in tenths) of the collaborator calls actually
made, in order. -/
structure AIResult where
  delivered : List AIResolution
  callTemps : List Nat
  deriving DecidableEq, Repr

/-- Temperature of the first generation call (0.7, in tenths). -/
def genTempFirst : Nat := 7

/-- Temperature of the retry call (0.5, in tenths). -/
def genTempRetry : Nat := 5

/-- `generateResolutions` of `aiClient.ts` over the call oracle: a parsed
response is returned as-is; a response with no JSON object falls back
immediately (no retry); a thrown call or parse error triggers exactly one
retry at the lower temperature, and any retry failure yields the fallback
batch.  The message texts only shape the prompt and do not affect control
flow. -/
def generateResolutions (_messages : List String) (a1 a2 : AttemptOutcome) : AIResult :=
  match a1 with
  | .parsedOk rs => { delivered := rs, callTemps := [genTempFirst] }
  | .noJsonMatch => { delivered := generateFallbackResolutions, callTemps := [genTempFirst] }
  | .callThrew | .parseThrew =>
    match a2 with
    | .parsedOk rs => { delivered := rs, callTemps := [genTempFirst, genTempRetry] }
    | _ => { delivered := generateFallbackResolutions, callTemps := [genTempFirst, genTempRetry] }

/-- Entry of the in-memory rate-limit map of `middleware/auth.ts`; dates are
day numbers. -/
structure RateEntry where
  count : Nat
  resetDate : Nat
  deriving DecidableEq, Repr

/-- Association-list lookup (first match), modelling JS `Map.get`. -/
def lookupA {α : Type} (l : List (String × α)) (k : String) : Option α :=
  (l.find? (fun p => p.1 == k)).map Prod.snd

/-- Association-list insert replacing the first existing entry, modelling JS
`Map.set`. -/
def insertA {α : Type} : List (String × α) → String → α → List (String × α)
  | [], k, v => [(k, v)]
  | p :: rest, k, v => if p.1 = k then (k, v) :: rest else p :: insertA rest k v

/-- Association-list removal of the first matching entry, modelling JS
`Map.delete`. -/
def eraseA {α : Type} : List (String × α) → String → List (String × α)
  | [], _ => []
  | p :: rest, k => if p.1 = k then rest else p :: eraseA rest k

/-- The in-memory `resolutionCounts` map. -/
abbrev RateMap : Type := List (String × RateEntry)

/-- `checkResolutionLimit` of `middleware/auth.ts`: a missing or stale entry
is reset to zero (mutating the map) and allows 3; at 3 or more uses the
request is denied with remaining 0. -/
def checkResolutionLimit (m : RateMap) (userId : String) (today : Nat) :
    (Bool × Nat) × RateMap :=
  match lookupA m userId with
  | none => ((true, 3), insertA m userId { count := 0, resetDate := today })
  | some e =>
    if e.resetDate < today then ((true, 3), insertA m userId { count := 0, resetDate := today })
    else if e.count ≥ 3 then ((false, 0), m)
    else ((true, 3 - e.count), m)

/-- `incrementResolutionCount` of `middleware/auth.ts`. -/
def incrementResolutionCount (m : RateMap) (userId : String) (today : Nat) : RateMap :=
  match lookupA m userId with
  | some e => insertA m userId { e with count := e.count + 1 }
  | none => insertA m userId { count := 1, resetDate := today }

/-- Error taxonomy of the route handlers: the HTTP statuses 403 / 404 / 400
("Already voted") / 429 / 400 ("Need at least 4 messages") and the catch-all
500 wrapping a thrown database error. -/
inductive ApiErr where
  | accessDenied
  | notFound
  | alreadyVoted
  | quotaExceeded
  | insufficientContext
  | internal (e : DbErr)
  deriving DecidableEq, Repr

/-- Real-time event shapes of the `WSMessage` union that the server emits. -/
inductive Event where
  | errorMsg (m : String)
  | newMessage (msg : Message) (senderName : String)
  | userJoined (userId userName : String)
  | userLeft (userId : String)
  | resolutionsGenerated (rs : List Resolution)
  | voteCast (userId resolutionId : String)
  | roomResolved (r : Option Resolution)
  deriving DecidableEq, Repr

/-- `ensureRoomMember` of `routes.ts`: fail closed when the room is absent,
else membership is creator or either participant slot. -/
def ensureRoomMember (s : Storage) (roomId userId : String) : Bool :=
  match getRoomById s roomId with
  | none => false
  | some room =>
    room.createdBy == userId ||
    room.participant1Id == some userId ||
    room.participant2Id == some userId

/-- JS `a || b` on a nullable string: null, undefined and the empty string
fall through to the default. -/
def jsOrStr (o : Option String) (d : String) : String :=
  match o with
  | none => d
  | some s => if s = "" then d else s

/-- Room-creation route (`POST /api/rooms`): the creator takes slot 1 at
creation; the id is database-generated and the 6-character code is supplied
by the caller of the model. -/
def createRoomRoute (s : Storage) (userId code : String) : Room × Storage :=
  let room : Room :=
    { id := "room-" ++ toString s.rooms.length, code := code, createdBy := userId,
      participant1Id := some userId, participant2Id := none,
      status := "active", resolvedAt := none }
  (room, { s with rooms := s.rooms ++ [room] })

/-- Join-by-code route (`POST /api/rooms/join`): look the room up by code
(404 when absent), run the slot assignment, and answer with the room row
fetched before the update. -/
def joinRoomByCode (s : Storage) (userId code : String) :
    Except ApiErr Room × Storage :=
  match getRoomByCode s code with
  | none => (.error .notFound, s)
  | some room =>
    match updateRoomParticipant s room.id userId with
    | .ok s1 => (.ok room, s1)
    | .error e => (.error (.internal e), s)

/-- Vote route (`POST /api/rooms/:id/vote`): membership check, then the
already-voted check, then the insert; on success broadcast `vote_cast`, then
recount the room's votes and, exactly when two votes referencing the same
resolution exist, mark the room resolved (with timestamp `now`) and broadcast
the terminal `room_resolved` event.  The third component collects the events
handed to `broadcastToRoom`. -/
def voteRoute (s : Storage) (userId roomId resolutionId : String) (now : Nat) :
    Except ApiErr Vote × Storage × List Event :=
  if ensureRoomMember s roomId userId = false then (.error .accessDenied, s, [])
  else
    match getUserVote s roomId userId with
    | some _ => (.error .alreadyVoted, s, [])
    | none =>
      match createVote s roomId resolutionId userId with
      | .error e => (.error (.internal e), s, [])
      | .ok (vote, s1) =>
        match getRoomVotes s1 roomId with
        | [v1, v2] =>
          if v1.resolutionId = v2.resolutionId then
            let s2 := updateRoomStatus s1 roomId "resolved" (some now)
            let res := getResolutionById s2 resolutionId
            (.ok vote, s2, [Event.voteCast userId resolutionId, Event.roomResolved res])
          else (.ok vote, s1, [Event.voteCast userId resolutionId])
        | _ => (.ok vote, s1, [Event.voteCast userId resolutionId])

/-- Result of the generate-resolutions route: response, database, rate-limit
map, and the events handed to `broadcastToRoom`. -/
structure GenOut where
  result : Except ApiErr (List Resolution)
  store : Storage
  rate : RateMap
  events : List Event
  deriving Repr

/-- Generate-resolutions route (`POST /api/rooms/:id/generate-resolutions`):
membership, then quota, then the 4-message context check, then generation via
the collaborator oracle, persistence, quota consumption and broadcast. -/
def generateResolutionsRoute (s : Storage) (m : RateMap) (userId roomId : String)
    (today : Nat) (a1 a2 : AttemptOutcome) : GenOut :=
  if ensureRoomMember s roomId userId = false then ⟨.error .accessDenied, s, m, []⟩
  else
    let checked := checkResolutionLimit m userId today
    if checked.1.1 = false then ⟨.error .quotaExceeded, s, checked.2, []⟩
    else
      let msgs := getRoomMessages s roomId
      if msgs.length < 4 then ⟨.error .insufficientContext, s, checked.2, []⟩
      else
        let texts := msgs.map (fun mg => jsOrStr mg.text (jsOrStr mg.transcript ""))
        let ai := generateResolutions texts a1 a2
        let items := ai.delivered.map (fun r =>
          { roomId := roomId, title := r.title, description := r.description,
            aiScore := r.ai_score, suggestedBest := r.suggested_best == (1 : Int) : InsertResolution })
        match createResolutions s items with
        | .error e => ⟨.error (.internal e), s, checked.2, []⟩
        | .ok (saved, s1) =>
          let m2 := incrementResolutionCount checked.2 userId today
          ⟨.ok saved, s1, m2, [Event.resolutionsGenerated saved]⟩

/-- Value stored per connection in `roomConnections`: the transport handle is
an opaque id, `isOpen` models `readyState === WebSocket.OPEN`. -/
structure ConnInfo where
  handle : Nat
  userName : String
  isOpen : Bool
  deriving DecidableEq, Repr

/-- The `roomConnections` map of `routes.ts`: room id to the map of user id
to live connection. -/
abbrev Registry : Type := List (String × List (String × ConnInfo))

/-- `broadcastToRoom` of `routes.ts`: deliver the event to every registered
open connection of the room except the optionally excluded user; returns the
(handle, event) writes performed. -/
def broadcastToRoom (reg : Registry) (roomId : String) (ev : Event)
    (excludeUserId : Option String) : List (Nat × Event) :=
  match lookupA reg roomId with
  | none => []
  | some clients =>
    (clients.filter (fun c => excludeUserId ≠ some c.1 && c.2.isOpen)).map
      (fun c => (c.2.handle, ev))

/-- Payload of a `join_room` client message. -/
structure JoinMsg where
  roomId : String
  userId : String
  userName : String
  deriving DecidableEq, Repr

/-- Result of a WebSocket handler step: the registry, the connection's
`currentRoomId`, the (handle, event) writes performed, and whether the
server closed the connection. -/
structure WsOut where
  reg : Registry
  currentRoomId : Option String
  sent : List (Nat × Event)
  closed : Bool
  deriving DecidableEq, Repr

/-- The `join_room` case of the WebSocket message handler: reject and close
on an identity mismatch with the authenticated user, on an absent room, and
on a non-member; otherwise record the connection in the registry (replacing
any previous one for the pair) and send `user_joined` to every other open
connection of the room. -/
def joinRoomHandler (reg : Registry) (s : Storage) (authUserId : String)
    (currentRoomId : Option String) (msg : JoinMsg) (self : ConnInfo) : WsOut :=
  if msg.userId ≠ authUserId then
    ⟨reg, currentRoomId, [(self.handle, Event.errorMsg "User ID mismatch")], true⟩
  else
    match getRoomById s msg.roomId with
    | none => ⟨reg, currentRoomId, [(self.handle, Event.errorMsg "Room not found")], true⟩
    | some room =>
      if !(room.createdBy == authUserId ||
           room.participant1Id == some authUserId ||
           room.participant2Id == some authUserId) then
        ⟨reg, currentRoomId, [(self.handle, Event.errorMsg "Access denied")], true⟩
      else
        let clients0 := (lookupA reg msg.roomId).getD []
        let clients1 := insertA clients0 authUserId
          { handle := self.handle, userName := msg.userName, isOpen := self.isOpen }
        let sends := (clients1.filter (fun c => c.1 ≠ authUserId && c.2.isOpen)).map
          (fun c => (c.2.handle, Event.userJoined authUserId msg.userName))
        ⟨insertA reg msg.roomId clients1, some msg.roomId, sends, false⟩

/-- The `leave_room` case of the WebSocket message handler and the `close`
handler (their bodies are identical): when a current room is set and has a
registry entry, delete this user's connection, send `user_left` to every
remaining open connection, and drop the room's entry when it became empty. -/
def unregisterHandler (reg : Registry) (currentRoomId : Option String)
    (authUserId : String) : Registry × List (Nat × Event) :=
  match currentRoomId with
  | none => (reg, [])
  | some rid =>
    match lookupA reg rid with
    | none => (reg, [])
    | some clients =>
      let clients1 := eraseA clients authUserId
      let sends := (clients1.filter (fun c => c.2.isOpen)).map
        (fun c => (c.2.handle, Event.userLeft authUserId))
      let reg1 := if clients1.isEmpty then eraseA reg rid else insertA reg rid clients1
      (reg1, sends)

/-- Identities currently assigned to the two participant slots of a room. -/
def assignedIds (r : Room) : List String :=
  r.participant1Id.toList ++ r.participant2Id.toList

/-- At most one vote per (room, identity) pair across the vote table. -/
def VotesUnique (s : Storage) : Prop :=
  s.votes.Pairwise (fun a b => ¬(a.roomId = b.roomId ∧ a.userId = b.userId))

/-- Collaborator-contract conformance of a candidate batch: exactly 3
candidates, integer scores in [0,100], at most one flagged best. -/
def WellFormedAIBatch (rs : List AIResolution) : Prop :=
  rs.length = 3 ∧ (∀ r ∈ rs, 0 ≤ r.ai_score ∧ r.ai_score ≤ 100) ∧
  (rs.filter (fun r => r.suggested_best == (1 : Int))).length ≤ 1

/-- Well-formedness of a delivered (persisted) resolution batch: exactly 3
rows, scores in [0,100], at most one recommended. -/
def WellFormedDelivered (rs : List Resolution) : Prop :=
  rs.length = 3 ∧ (∀ r ∈ rs, 0 ≤ r.aiScore ∧ r.aiScore ≤ 100) ∧
  (rs.filter (fun r => r.suggestedBest)).length ≤ 1

/-- Two-member room used by several concrete scenarios: u1 created the room
and holds slot 1, u2 holds slot 2. -/
def roomR1 : Room :=
  { id := "r1", code := "AB12CD", createdBy := "u1", participant1Id := some "u1",
    participant2Id := some "u2", status := "active", resolvedAt := none }

/-- Message helper for the concrete stores. -/
def mkMsg (i : Nat) (sender : String) : Message :=
  { id := "m" ++ toString i, roomId := "r1", senderId := sender,
    text := some ("hello " ++ toString i), transcript := none, isVoice := false,
    voiceUrl := none, timestamp := i }

/-- Store with room r1 and four persisted messages, no resolutions, no votes. -/
def storeFourMsgs : Storage :=
  { users := ["u1", "u2"], rooms := [roomR1],
    messages := [mkMsg 0 "u1", mkMsg 1 "u2", mkMsg 2 "u1", mkMsg 3 "u2"],
    resolutions := [], votes := [] }

/-- Store with room r1 and only three persisted messages. -/
def storeThreeMsgs : Storage :=
  { users := ["u1", "u2"], rooms := [roomR1],
    messages := [mkMsg 0 "u1", mkMsg 1 "u2", mkMsg 2 "u1"],
    resolutions := [], votes := [] }

/-- Store where u2 has already voted for resolution resX of room r1. -/
def storeOneVote : Storage :=
  { users := ["u1", "u2"], rooms := [roomR1],
    messages := [],
    resolutions := [{ id := "resX", roomId := "r1", title := "T", description := "D",
                      aiScore := 80, suggestedBest := true }],
    votes := [{ id := "vote-z", roomId := "r1", resolutionId := "resX", userId := "u2" }] }

/-- Store with a second room rB owning resolution resB; no resolution of r1
exists, while resB exists globally. -/
def storeCrossRoom : Storage :=
  { users := ["u1", "u2", "u3"],
    rooms := [roomR1,
              { id := "rB", code := "ZZ99ZZ", createdBy := "u3", participant1Id := some "u3",
                participant2Id := none, status := "active", resolvedAt := none }],
    messages := [],
    resolutions := [{ id := "resB", roomId := "rB", title := "T", description := "D",
                      aiScore := 80, suggestedBest := true }],
    votes := [] }

/-! ## Helper lemmas about the association-list maps -/

/-- Re-inserting the value already present under a key is the identity. -/
theorem lookupA_insertA_self {α : Type} (l : List (String × α)) (k : String) (v : α)
    (h : lookupA l k = some v) : insertA l k v = l := by
  induction l with
  | nil => simp [lookupA] at h
  | cons p rest ih =>
    by_cases hk : p.1 = k
    · have hfind : (p :: rest).find? (fun q => q.1 == k) = some p :=
        List.find?_cons_of_pos _ (by simp [hk])
      have hv : v = p.2 := by
        simp only [lookupA, hfind, Option.map_some'] at h
        exact (Option.some.inj h).symm
      have hp : (k, v) = p := by
        cases p
        simp_all
      simp [insertA, hk, hp]
    · have hfind : (p :: rest).find? (fun q => q.1 == k) = rest.find? (fun q => q.1 == k) :=
        List.find?_cons_of_neg _ (by simp [hk])
      have hrest : lookupA rest k = some v := by
        simpa [lookupA, hfind] using h
      simp [insertA, hk, ih hrest]

/-- Erasing a key absent from the list is the identity. -/
theorem eraseA_of_forall_ne {α : Type} (l : List (String × α)) (k : String)
    (h : ∀ p ∈ l, p.1 ≠ k) : eraseA l k = l := by
  induction l with
  | nil => rfl
  | cons p rest ih =>
    have hp : p.1 ≠ k := h p (by simp)
    simp [eraseA, hp, ih (fun q hq => h q (by simp [hq]))]

/-! ## Claim C6 -/

/-- C6: a `join_room` request whose asserted userId differs from the identity
authenticated on the connection is rejected — the server sends an error and
closes the connection, the Connection Registry is unchanged (the connection is
registered for no room), and no `user_joined` event is broadcast. -/
theorem join_mismatch_rejected (reg : Registry) (s : Storage) (authUserId : String)
    (cur : Option String) (msg : JoinMsg) (self : ConnInfo)
    (h : msg.userId ≠ authUserId) :
    joinRoomHandler reg s authUserId cur msg self =
      ⟨reg, cur, [(self.handle, Event.errorMsg "User ID mismatch")], true⟩ := by
  unfold joinRoomHandler
  rw [if_pos h]

/-- Witness for C6 at a concrete mismatching join. -/
theorem join_mismatch_rejected_witness :
    joinRoomHandler [] storeFourMsgs "u1" none
        { roomId := "r1", userId := "u2", userName := "Mallory" }
        { handle := 1, userName := "Mallory", isOpen := true } =
      ⟨[], none, [(1, Event.errorMsg "User ID mismatch")], true⟩ :=
  join_mismatch_rejected [] storeFourMsgs "u1" none
    { roomId := "r1", userId := "u2", userName := "Mallory" }
    { handle := 1, userName := "Mallory", isOpen := true } (by decide)

/-! ## Claim C5 -/

/-- C5 counterexample: with a first response containing no JSON object (a
malformed, unparsable response) the client makes no retry call at all — only
one collaborator call happens (even though a retry would have succeeded
here), and the fallback batch is returned.  This refutes the claim that a
malformed response always triggers exactly one lower-temperature retry. -/
theorem generation_noJson_skips_retry :
    generateResolutions [] .noJsonMatch
        (.parsedOk [{ id := "9", title := "W", description := "W",
                      ai_score := 99, suggested_best := 1 }]) =
      { delivered := generateFallbackResolutions, callTemps := [genTempFirst] } ∧
    [genTempFirst].length = 1 :=
  ⟨rfl, rfl⟩

/-- C5 (amended): when the first collaborator call throws or its extracted
JSON fails to parse, exactly one retry is made at the strictly lower
temperature, a parsed retry is returned and any failed retry yields the
deterministic fallback batch; when the first response merely contains no JSON
object, the fallback batch is returned immediately with no retry; a parsed
first response is returned after a single call.  The function is total, so a
generation failure is never surfaced as a hard failure. -/
theorem generation_retry_fallback_structure (msgs : List String) (a1 a2 : AttemptOutcome) :
    ((a1 = .callThrew ∨ a1 = .parseThrew) →
       (generateResolutions msgs a1 a2).callTemps = [genTempFirst, genTempRetry] ∧
       (∀ rs, a2 = .parsedOk rs → (generateResolutions msgs a1 a2).delivered = rs) ∧
       ((∀ rs, a2 ≠ .parsedOk rs) →
         (generateResolutions msgs a1 a2).delivered = generateFallbackResolutions)) ∧
    (a1 = .noJsonMatch →
       generateResolutions msgs a1 a2 =
         { delivered := generateFallbackResolutions, callTemps := [genTempFirst] }) ∧
    (∀ rs, a1 = .parsedOk rs →
       generateResolutions msgs a1 a2 = { delivered := rs, callTemps := [genTempFirst] }) ∧
    genTempRetry < genTempFirst := by
  refine ⟨?_, ?_, ?_, by decide⟩
  · rintro (rfl | rfl) <;> cases a2 <;> refine ⟨rfl, ?_, ?_⟩ <;>
      first
        | (intro rs1 h; cases h; rfl)
        | (intro rs1 h; cases h)
        | (intro hno; exact absurd rfl (hno _))
        | (intro hno; rfl)
  · rintro rfl; rfl
  · rintro rs rfl; rfl

/-- Witness for the amended C5: a thrown first call followed by a failed
retry makes exactly the two calls at temperatures 0.7 then 0.5 and returns
the fallback batch. -/
theorem generation_retry_fallback_structure_witness :
    (generateResolutions [] .callThrew .noJsonMatch).callTemps =
      [genTempFirst, genTempRetry] ∧
    (generateResolutions [] .callThrew .noJsonMatch).delivered =
      generateFallbackResolutions :=
  ⟨((generation_retry_fallback_structure [] .callThrew .noJsonMatch).1 (Or.inl rfl)).1,
   ((generation_retry_fallback_structure [] .callThrew .noJsonMatch).1 (Or.inl rfl)).2.2
     (fun rs h => nomatch h)⟩

/-! ## Claim C9 -/

/-- C9 counterexample: unregistering a (room, user) pair with no live
connection leaves the registry unchanged, but when another connection remains
registered for the room the handler still broadcasts `user_left` for the
absent pair — refuting the claim that such an unregister causes no
additional `user_left` broadcast. -/
theorem unregister_absent_still_broadcasts :
    (unregisterHandler [("r1", [("uB", { handle := 2, userName := "Bea", isOpen := true })])]
        (some "r1") "uA").1 =
      [("r1", [("uB", { handle := 2, userName := "Bea", isOpen := true })])] ∧
    (unregisterHandler [("r1", [("uB", { handle := 2, userName := "Bea", isOpen := true })])]
        (some "r1") "uA").2 =
      [(2, Event.userLeft "uA")] :=
  ⟨rfl, rfl⟩

/-- C9 (amended): unregistering with no current room, or for a room with no
registry entry, is a full no-op; unregistering a pair absent from a nonempty
room entry leaves the registry unchanged but still broadcasts `user_left` to
each remaining open connection.  In particular a second unregister after a
successful one changes no registry state, but re-broadcasts `user_left`
whenever other connections remain. -/
theorem unregister_registry_noop (reg : Registry) (rid auth : String) :
    (unregisterHandler reg none auth = (reg, [])) ∧
    (lookupA reg rid = none → unregisterHandler reg (some rid) auth = (reg, [])) ∧
    (∀ clients, lookupA reg rid = some clients → (∀ c ∈ clients, c.1 ≠ auth) →
      clients ≠ [] →
      unregisterHandler reg (some rid) auth =
        (reg, (clients.filter (fun c => c.2.isOpen)).map
          (fun c => (c.2.handle, Event.userLeft auth)))) := by
  refine ⟨rfl, ?_, ?_⟩
  · intro h
    simp only [unregisterHandler, h]
  · intro clients hlook habs hne
    have her : eraseA clients auth = clients := eraseA_of_forall_ne clients auth habs
    have hemp : clients.isEmpty = false := by
      cases clients with
      | nil => exact absurd rfl hne
      | cons c rest => rfl
    simp only [unregisterHandler, hlook, her, hemp, Bool.false_eq_true, if_false]
    rw [lookupA_insertA_self reg rid clients hlook]

/-- Witness for the amended C9 at concrete registries: a missing room entry
is a full no-op, and an absent pair in a populated entry keeps the registry
but emits `user_left` to the remaining connection. -/
theorem unregister_registry_noop_witness :
    (unregisterHandler [("r2", [("uB", { handle := 2, userName := "Bea", isOpen := true })])]
        (some "r1") "uA" =
      ([("r2", [("uB", { handle := 2, userName := "Bea", isOpen := true })])], [])) ∧
    (unregisterHandler [("r1", [("uC", { handle := 3, userName := "Cal", isOpen := true })])]
        (some "r1") "uA" =
      ([("r1", [("uC", { handle := 3, userName := "Cal", isOpen := true })])],
       [(3, Event.userLeft "uA")])) :=
  ⟨(unregister_registry_noop _ "r1" "uA").2.1 (by decide),
   (unregister_registry_noop _ "r1" "uA").2.2
     [("uC", { handle := 3, userName := "Cal", isOpen := true })]
     (by decide) (by decide) (by decide)⟩

/-! ## Claim C2 -/

/-- C2 counterexample: a parsable but non-conforming collaborator response is
persisted and delivered as-is — here a single candidate with score 400 is
delivered, so a delivered batch need not have 3 candidates with scores in
[0,100].  The code validates nothing about a parsed response. -/
theorem generation_unvalidated_counterexample :
    (generateResolutionsRoute storeFourMsgs [] "u1" "r1" 0
        (.parsedOk [{ id := "1", title := "T", description := "D",
                      ai_score := 400, suggested_best := 1 }]) .callThrew).result =
      .ok [{ id := "res-0", roomId := "r1", title := "T", description := "D",
             aiScore := 400, suggestedBest := true }] ∧
    ¬ WellFormedDelivered
        [{ id := "res-0", roomId := "r1", title := "T", description := "D",
           aiScore := 400, suggestedBest := true }] := by
  refine ⟨rfl, ?_⟩
  unfold WellFormedDelivered
  decide

/-! ## Claim C8 -/

/-- C8 counterexample: castVote with a resolutionId that identifies no
resolution of the target room — but does identify a resolution of a
different room — succeeds and records the vote instead of surfacing
NotFound: the route never checks that the resolution belongs to the room,
and the foreign key only requires global existence. -/
theorem vote_crossroom_accepted :
    (voteRoute storeCrossRoom "u1" "r1" "resB" 0).1 =
      .ok { id := "vote-0", roomId := "r1", resolutionId := "resB", userId := "u1" } ∧
    (∀ r ∈ storeCrossRoom.resolutions, r.roomId ≠ "r1") := by
  exact ⟨rfl, by decide⟩

/-! ## Claim C7 -/

/-- Slot 1, once occupied, is never modified by a slot assignment. -/
theorem updSlots_p1_stable (r : Room) (pid : String) (h : r.participant1Id.isSome) :
    (updateParticipantSlots r pid).participant1Id = r.participant1Id := by
  cases hm : r.participant1Id with
  | none => rw [hm] at h; simp at h
  | some p1 =>
    simp only [updateParticipantSlots, hm]
    split <;> first | rfl | exact hm

/-- Slot 2, once occupied, is never modified by a slot assignment. -/
theorem updSlots_p2_stable (r : Room) (pid y : String) (h : r.participant2Id = some y) :
    (updateParticipantSlots r pid).participant2Id = some y := by
  cases hm : r.participant1Id with
  | none => simp only [updateParticipantSlots, hm]; exact h
  | some p1 =>
    simp only [updateParticipantSlots, hm]
    split
    · rename_i hc
      rw [h] at hc
      exact absurd hc.1 (by simp)
    · exact h

/-- Along any sequence of slot assignments, an occupied slot 1 keeps its
occupant. -/
theorem foldl_updSlots_p1 (pids : List String) (r : Room) (c : String)
    (h : r.participant1Id = some c) :
    (pids.foldl updateParticipantSlots r).participant1Id = some c := by
  induction pids generalizing r with
  | nil => exact h
  | cons p rest ih =>
    simp only [List.foldl_cons]
    refine ih _ ?_
    rw [updSlots_p1_stable r p (by rw [h]; rfl), h]

/-- Along any sequence of slot assignments, an occupied slot 2 keeps its
occupant. -/
theorem foldl_updSlots_p2 (pids : List String) (r : Room) (y : String)
    (h : r.participant2Id = some y) :
    (pids.foldl updateParticipantSlots r).participant2Id = some y := by
  induction pids generalizing r with
  | nil => exact h
  | cons p rest ih =>
    simp only [List.foldl_cons]
    exact ih _ (updSlots_p2_stable r p y h)

/-- C7: slot assignment is first-empty-wins and idempotent — with slot 1
occupied (as it is from creation on), assigning an identity that already
occupies a slot is a no-op, an empty slot 1 is filled first, slot 2 is filled
only by a different identity, the creator's self-assignment on a freshly
created room is a no-op — and along any sequence of assignments starting
from a room whose slot 1 holds the creator, at most 2 distinct identities
ever appear across the two slots. -/
theorem room_slot_invariants (c code : String) :
    (∀ (r : Room) (pid : String), r.participant1Id.isSome →
       (r.participant1Id = some pid ∨ r.participant2Id = some pid) →
       updateParticipantSlots r pid = r) ∧
    (∀ (r : Room) (pid : String), r.participant1Id = none →
       updateParticipantSlots r pid = { r with participant1Id := some pid }) ∧
    (∀ (r : Room) (p1 pid : String), r.participant1Id = some p1 → p1 ≠ pid →
       r.participant2Id = none →
       updateParticipantSlots r pid = { r with participant2Id := some pid }) ∧
    (∀ s : Storage, updateParticipantSlots (createRoomRoute s c code).1 c =
       (createRoomRoute s c code).1) ∧
    (∀ (r0 : Room) (pids : List String), r0.participant1Id = some c →
       ∃ x, ∀ p q, pids = p ++ q →
         ∀ u, u ∈ assignedIds (p.foldl updateParticipantSlots r0) → u = c ∨ u = x) := by
  refine ⟨?_, ?_, ?_, ?_, ?_⟩
  · intro r pid h hocc
    cases hm : r.participant1Id with
    | none => rw [hm] at h; simp at h
    | some p1 =>
      simp only [updateParticipantSlots, hm]
      have hcne : ¬(r.participant2Id = none ∧ p1 ≠ pid) := by
        rintro ⟨hc1, hc2⟩
        rcases hocc with h1 | h2
        · rw [hm] at h1
          exact hc2 (Option.some.inj h1)
        · rw [h2] at hc1
          cases hc1
      rw [if_neg hcne]
  · intro r pid h
    simp only [updateParticipantSlots, h]
  · intro r p1 pid h1 hne h2
    simp only [updateParticipantSlots, h1]
    rw [if_pos ⟨h2, hne⟩]
  · intro s
    simp only [createRoomRoute, updateParticipantSlots]
    rw [if_neg (fun hc => hc.2 rfl)]
  · intro r0 pids h0
    refine ⟨((pids.foldl updateParticipantSlots r0).participant2Id).getD c, ?_⟩
    intro p q hpq u hu
    have hp1 : (p.foldl updateParticipantSlots r0).participant1Id = some c :=
      foldl_updSlots_p1 p r0 c h0
    cases hp2 : (p.foldl updateParticipantSlots r0).participant2Id with
    | none =>
      left
      simpa [assignedIds, hp1, hp2] using hu
    | some y =>
      have hfin : (pids.foldl updateParticipantSlots r0).participant2Id = some y := by
        rw [hpq, List.foldl_append]
        exact foldl_updSlots_p2 q _ y hp2
      simp [assignedIds, hp1, hp2] at hu
      rcases hu with rfl | rfl
      · exact Or.inl rfl
      · right
        rw [hfin]
        rfl

/-- Witness for C7 at concrete rooms: re-assigning the slot-2 occupant is a
no-op, a fresh identity fills the empty slot 2, and the creator's
self-assignment on a freshly created room is a no-op. -/
theorem room_slot_invariants_witness :
    updateParticipantSlots
        { id := "r1", code := "AB12CD", createdBy := "u1", participant1Id := some "u1",
          participant2Id := some "u2", status := "active", resolvedAt := none } "u2" =
      { id := "r1", code := "AB12CD", createdBy := "u1", participant1Id := some "u1",
        participant2Id := some "u2", status := "active", resolvedAt := none } ∧
    updateParticipantSlots
        { id := "r1", code := "AB12CD", createdBy := "u1", participant1Id := some "u1",
          participant2Id := none, status := "active", resolvedAt := none } "u2" =
      { id := "r1", code := "AB12CD", createdBy := "u1", participant1Id := some "u1",
        participant2Id := some "u2", status := "active", resolvedAt := none } ∧
    updateParticipantSlots
        (createRoomRoute { users := [], rooms := [], messages := [], resolutions := [],
                           votes := [] } "u1" "AB12CD").1 "u1" =
      (createRoomRoute { users := [], rooms := [], messages := [], resolutions := [],
                         votes := [] } "u1" "AB12CD").1 :=
  ⟨(room_slot_invariants "u1" "AB12CD").1 _ "u2" (by decide) (Or.inr rfl),
   (room_slot_invariants "u1" "AB12CD").2.2.1 _ "u1" "u2" rfl (by decide) rfl,
   (room_slot_invariants "u1" "AB12CD").2.2.2.1 _⟩

/-! ## Shared route-level lemmas -/

/-- A positive membership check implies the room row exists. -/
theorem ensureRoomMember_exists (s : Storage) (roomId userId : String)
    (h : ensureRoomMember s roomId userId = true) :
    ∃ room, getRoomById s roomId = some room := by
  unfold ensureRoomMember at h
  cases hg : getRoomById s roomId with
  | none => rw [hg] at h; cases h
  | some room => exact ⟨room, rfl⟩

/-- Shape of a successful vote insert: the store only gains the fresh vote
row, whose fields are the inserted ones, and the referenced resolution
exists. -/
theorem createVote_ok_shape (s : Storage) (roomId resolutionId userId : String)
    (v : Vote) (s1 : Storage)
    (h : createVote s roomId resolutionId userId = .ok (v, s1)) :
    s1 = { s with votes := s.votes ++ [v] } ∧ v.roomId = roomId ∧
    v.userId = userId ∧ v.resolutionId = resolutionId ∧
    (getResolutionById s resolutionId).isSome := by
  unfold createVote at h
  split at h
  · cases h
  · split at h
    · cases h
    · split at h
      · cases h
      · rename_i h1 h2 h3
        have hp := Except.ok.inj h
        rw [Prod.ext_iff] at hp
        obtain ⟨hv, hs⟩ := hp
        subst hv
        subst hs
        refine ⟨rfl, rfl, rfl, rfl, ?_⟩
        cases ho : getResolutionById s resolutionId with
        | none => rw [ho] at h2; simp at h2
        | some r => rfl

/-! ## Claim C3 -/

/-- C3: at most one vote per (room, identity) pair is ever recorded — the
uniqueness invariant on the vote table is preserved by the vote route, and
casting when the voter already has a vote in the room fails with
AlreadyVoted, leaving the store unchanged, broadcasting nothing, and never
overwriting the existing vote. -/
theorem vote_unique_per_identity (s : Storage) (userId roomId resolutionId : String)
    (now : Nat) :
    (VotesUnique s → VotesUnique (voteRoute s userId roomId resolutionId now).2.1) ∧
    (ensureRoomMember s roomId userId = true → (getUserVote s roomId userId).isSome →
      voteRoute s userId roomId resolutionId now = (.error .alreadyVoted, s, [])) := by
  constructor
  · intro hU
    unfold voteRoute
    split
    · exact hU
    · split
      · exact hU
      · rename_i hv
        split
        · exact hU
        · rename_i v s1 hcv
          obtain ⟨hs1, hvr, hvu, hvid, hres⟩ :=
            createVote_ok_shape s roomId resolutionId userId v s1 hcv
          have hnew : ∀ a ∈ s.votes, ¬(a.roomId = roomId ∧ a.userId = userId) := by
            intro a ha hq
            have hfa := List.find?_eq_none.mp hv a ha
            apply hfa
            simp [hq.1, hq.2]
          have hU1 : VotesUnique s1 := by
            rw [hs1]
            unfold VotesUnique
            simp only
            rw [List.pairwise_append]
            refine ⟨hU, List.pairwise_singleton _ _, ?_⟩
            intro a ha b hb
            simp only [List.mem_singleton] at hb
            subst hb
            intro hq
            rw [hvr, hvu] at hq
            exact hnew a ha hq
          split
          · split
            · exact hU1
            · exact hU1
          · exact hU1
  · intro hm hv
    unfold voteRoute
    rw [if_neg (by rw [hm]; simp)]
    obtain ⟨w, hw⟩ := Option.isSome_iff_exists.mp hv
    rw [hw]

/-- Witness for C3: in the store where u2 already voted, a second vote by u2
fails with AlreadyVoted and the post-state still satisfies the uniqueness
invariant. -/
theorem vote_unique_per_identity_witness :
    (voteRoute storeOneVote "u2" "r1" "resX" 0 = (.error .alreadyVoted, storeOneVote, [])) ∧
    VotesUnique (voteRoute storeOneVote "u2" "r1" "resX" 0).2.1 :=
  ⟨(vote_unique_per_identity storeOneVote "u2" "r1" "resX" 0).2 (by decide) (by decide),
   (vote_unique_per_identity storeOneVote "u2" "r1" "resX" 0).1
     (by unfold VotesUnique; decide)⟩

/-- C8 (amended): when castVote references a resolutionId matching no
resolution row at all, the vote insert fails its foreign-key check and the
failure is surfaced to the caller with no retry and no state change — while
a resolutionId that exists but belongs to a different room is accepted, so
absence from the target room alone does not produce a failure. -/
theorem vote_absent_resolution_rejected (s : Storage)
    (userId roomId resolutionId : String) (now : Nat)
    (hm : ensureRoomMember s roomId userId = true)
    (hv : getUserVote s roomId userId = none)
    (hr : getResolutionById s resolutionId = none) :
    voteRoute s userId roomId resolutionId now =
      (.error (.internal (.fkViolation "resolution_id")), s, []) := by
  unfold voteRoute
  rw [if_neg (by rw [hm]; simp)]
  rw [hv]
  have hcv : createVote s roomId resolutionId userId =
      .error (.fkViolation "resolution_id") := by
    unfold createVote
    obtain ⟨room, hroom⟩ := ensureRoomMember_exists s roomId userId hm
    rw [if_neg (by rw [hroom]; simp)]
    rw [if_pos (by rw [hr]; rfl)]
  rw [hcv]

/-- Witness for the amended C8: voting for an id that matches no resolution
row fails with the surfaced foreign-key error and leaves the store intact. -/
theorem vote_absent_resolution_rejected_witness :
    voteRoute storeFourMsgs "u1" "r1" "nores" 0 =
      (.error (.internal (.fkViolation "resolution_id")), storeFourMsgs, []) :=
  vote_absent_resolution_rejected storeFourMsgs "u1" "r1" "nores" 0
    (by decide) (by decide) (by decide)

/-! ## Claim C10 -/

/-- C10: joining by code succeeds and returns the room whenever a room with
that code exists, even when both participant slots are held by other
identities — in that case the slot assignment is a no-op, the caller is not
a member, and subsequent room-scoped operations (voting, requesting
resolutions) are denied. -/
theorem join_full_room_succeeds (s : Storage) (userId code : String) (room : Room)
    (a b : String)
    (hcode : getRoomByCode s code = some room)
    (hbyid : getRoomById s room.id = some room)
    (h1 : room.participant1Id = some a) (h2 : room.participant2Id = some b)
    (hc : room.createdBy ≠ userId) (ha : a ≠ userId) (hb : b ≠ userId) :
    joinRoomByCode s userId code = (.ok room, s) ∧
    ensureRoomMember s room.id userId = false ∧
    (∀ resolutionId now, voteRoute s userId room.id resolutionId now =
      (.error .accessDenied, s, [])) ∧
    (∀ m today a1 a2, generateResolutionsRoute s m userId room.id today a1 a2 =
      ⟨.error .accessDenied, s, m, []⟩) := by
  have hmem : ensureRoomMember s room.id userId = false := by
    unfold ensureRoomMember
    rw [hbyid]
    simp only [h1, h2, Bool.or_eq_false_iff]
    refine ⟨⟨beq_eq_false_iff_ne.mpr hc, ?_⟩, ?_⟩
    · exact beq_eq_false_iff_ne.mpr (fun hcon => ha (Option.some.inj hcon))
    · exact beq_eq_false_iff_ne.mpr (fun hcon => hb (Option.some.inj hcon))
  refine ⟨?_, hmem, ?_, ?_⟩
  · have hupd : updateRoomParticipant s room.id userId = .ok s := by
      unfold updateRoomParticipant
      rw [hbyid]
      simp only [h1]
      rw [if_neg (fun hq => Option.noConfusion (h2 ▸ hq.1))]
    unfold joinRoomByCode
    simp only [hcode, hupd]
  · intro resolutionId now
    unfold voteRoute
    rw [if_pos hmem]
  · intro m today a1 a2
    unfold generateResolutionsRoute
    rw [if_pos hmem]

/-- Witness for C10: u3 joins the full room r1 by code; the call succeeds,
no slot changes, and u3 is not a member afterwards. -/
theorem join_full_room_succeeds_witness :
    joinRoomByCode storeOneVote "u3" "AB12CD" = (.ok roomR1, storeOneVote) ∧
    ensureRoomMember storeOneVote "r1" "u3" = false :=
  ⟨(join_full_room_succeeds storeOneVote "u3" "AB12CD" roomR1 "u1" "u2"
      (by decide) (by decide) rfl rfl (by decide) (by decide) (by decide)).1,
   (join_full_room_succeeds storeOneVote "u3" "AB12CD" roomR1 "u1" "u2"
      (by decide) (by decide) rfl rfl (by decide) (by decide) (by decide)).2.1⟩

/-! ## Claim C4 -/

/-- A quota check either allows the request, or denies it leaving the
rate-limit map untouched. -/
theorem checkResolutionLimit_spec (m : RateMap) (u : String) (t : Nat) :
    (checkResolutionLimit m u t).1.1 = true ∨
    ((checkResolutionLimit m u t).1.1 = false ∧ (checkResolutionLimit m u t).2 = m) := by
  unfold checkResolutionLimit
  cases lookupA m u with
  | none => exact Or.inl rfl
  | some e =>
    dsimp only
    by_cases hd : e.resetDate < t
    · rw [if_pos hd]
      exact Or.inl rfl
    · rw [if_neg hd]
      by_cases hc : e.count ≥ 3
      · rw [if_pos hc]
        exact Or.inr ⟨rfl, rfl⟩
      · rw [if_neg hc]
        exact Or.inl rfl

/-- C4: the generate-resolutions route checks membership, then quota, then
message count, in that order with distinct failures; for a member with
remaining quota it fails with InsufficientContext exactly when the room has
fewer than 4 persisted messages, and with at least 4 it proceeds to a
successful generation. -/
theorem requestResolutions_preconditions (s : Storage) (m : RateMap)
    (userId roomId : String) (today : Nat) (a1 a2 : AttemptOutcome) :
    (ensureRoomMember s roomId userId = false →
      generateResolutionsRoute s m userId roomId today a1 a2 =
        ⟨.error .accessDenied, s, m, []⟩) ∧
    (ensureRoomMember s roomId userId = true →
      (checkResolutionLimit m userId today).1.1 = false →
      generateResolutionsRoute s m userId roomId today a1 a2 =
        ⟨.error .quotaExceeded, s, m, []⟩) ∧
    (ensureRoomMember s roomId userId = true →
      (checkResolutionLimit m userId today).1.1 = true →
      (((generateResolutionsRoute s m userId roomId today a1 a2).result =
          .error .insufficientContext) ↔ (getRoomMessages s roomId).length < 4) ∧
      (4 ≤ (getRoomMessages s roomId).length →
        ∃ saved, (generateResolutionsRoute s m userId roomId today a1 a2).result =
          .ok saved)) := by
  refine ⟨?_, ?_, ?_⟩
  · intro h
    unfold generateResolutionsRoute
    rw [if_pos h]
  · intro hm hq
    unfold generateResolutionsRoute
    rw [if_neg (by rw [hm]; simp)]
    rw [if_pos hq]
    rcases checkResolutionLimit_spec m userId today with hsp | ⟨hsp, hmap⟩
    · rw [hsp] at hq
      cases hq
    · rw [hmap]
  · intro hm hq
    by_cases hlen : (getRoomMessages s roomId).length < 4
    · have hchar : generateResolutionsRoute s m userId roomId today a1 a2 =
          ⟨.error .insufficientContext, s, (checkResolutionLimit m userId today).2, []⟩ := by
        unfold generateResolutionsRoute
        rw [if_neg (by rw [hm]; simp)]
        rw [if_neg (by rw [hq]; simp)]
        rw [if_pos hlen]
      constructor
      · rw [hchar]
        exact ⟨fun _ => hlen, fun _ => rfl⟩
      · intro hge
        exact absurd hlen (by omega)
    · obtain ⟨room, hroom⟩ := ensureRoomMember_exists s roomId userId hm
      have hcr : ∃ saved s1,
          createResolutions s
            ((generateResolutions
                ((getRoomMessages s roomId).map
                  (fun mg => jsOrStr mg.text (jsOrStr mg.transcript ""))) a1 a2).delivered.map
              (fun r => { roomId := roomId, title := r.title, description := r.description,
                          aiScore := r.ai_score,
                          suggestedBest := r.suggested_best == (1 : Int) : InsertResolution })) =
            .ok (saved, s1) := by
        unfold createResolutions
        rw [if_pos ?hall]
        · exact ⟨_, _, rfl⟩
        case hall =>
          rw [List.all_eq_true]
          intro it hit
          obtain ⟨r0, hr0, heq⟩ := List.mem_map.mp hit
          rw [← heq]
          show (getRoomById s roomId).isSome = true
          rw [hroom]
          rfl
      obtain ⟨saved, s1, hcr⟩ := hcr
      have hchar : generateResolutionsRoute s m userId roomId today a1 a2 =
          ⟨.ok saved, s1,
            incrementResolutionCount (checkResolutionLimit m userId today).2 userId today,
            [Event.resolutionsGenerated saved]⟩ := by
        unfold generateResolutionsRoute
        rw [if_neg (by rw [hm]; simp)]
        rw [if_neg (by rw [hq]; simp)]
        rw [if_neg hlen]
        simp only [hcr]
      constructor
      · rw [hchar]
        constructor
        · intro habs
          exact Except.noConfusion habs
        · intro hlt
          exact absurd hlt hlen
      · intro hge
        exact ⟨saved, by rw [hchar]⟩

/-- Witness for C4: with exactly 3 messages generation fails with
InsufficientContext; with exactly 4 it does not. -/
theorem requestResolutions_preconditions_witness :
    ((generateResolutionsRoute storeThreeMsgs [] "u1" "r1" 0 .callThrew .callThrew).result =
      .error .insufficientContext) ∧
    ¬ ((generateResolutionsRoute storeFourMsgs [] "u1" "r1" 0 .callThrew .callThrew).result =
      .error .insufficientContext) := by
  constructor
  · exact ((requestResolutions_preconditions storeThreeMsgs [] "u1" "r1" 0
      .callThrew .callThrew).2.2 (by decide) (by decide)).1.mpr (by decide)
  · intro habs
    have hiff := ((requestResolutions_preconditions storeFourMsgs [] "u1" "r1" 0
      .callThrew .callThrew).2.2 (by decide) (by decide)).1
    exact absurd (hiff.mp habs) (by decide)

/-- Shape of a successful batch insert: lengths, scores and recommended
flags of the saved rows are exactly those of the inserted items. -/
theorem createResolutions_ok_map (s : Storage) (items : List InsertResolution)
    (saved : List Resolution) (s1 : Storage)
    (h : createResolutions s items = .ok (saved, s1)) :
    saved.map (fun r => r.aiScore) = items.map (fun it => it.aiScore) ∧
    saved.map (fun r => r.suggestedBest) = items.map (fun it => it.suggestedBest) ∧
    saved.length = items.length := by
  unfold createResolutions at h
  split at h
  · have hp := Except.ok.inj h
    rw [Prod.ext_iff] at hp
    obtain ⟨hsv, _⟩ := hp
    subst hsv
    refine ⟨?_, ?_, ?_⟩
    · rw [List.map_map]
      conv_rhs => rw [← List.enum_map_snd items, List.map_map]
      rfl
    · rw [List.map_map]
      conv_rhs => rw [← List.enum_map_snd items, List.map_map]
      rfl
    · rw [List.length_map, List.enum_length]
  · cases h

/-- C2 (amended): whenever every parsed collaborator response conforms to the
contract (3 candidates, scores in [0,100], at most one recommended), any
batch the route successfully delivers is well-formed — and the fallback path
satisfies this unconditionally since the fallback batch conforms. -/
theorem generation_wellformed_of_conforming (s : Storage) (m : RateMap)
    (userId roomId : String) (today : Nat) (a1 a2 : AttemptOutcome)
    (h1 : ∀ rs, a1 = .parsedOk rs → WellFormedAIBatch rs)
    (h2 : ∀ rs, a2 = .parsedOk rs → WellFormedAIBatch rs)
    (saved : List Resolution)
    (hok : (generateResolutionsRoute s m userId roomId today a1 a2).result = .ok saved) :
    WellFormedDelivered saved := by
  have hfb : WellFormedAIBatch generateFallbackResolutions := by
    unfold WellFormedAIBatch
    decide
  have hai : ∀ texts, WellFormedAIBatch ((generateResolutions texts a1 a2).delivered) := by
    intro texts
    cases a1 with
    | parsedOk rs => exact h1 rs rfl
    | noJsonMatch => exact hfb
    | callThrew =>
      cases a2 with
      | parsedOk rs => exact h2 rs rfl
      | callThrew => exact hfb
      | noJsonMatch => exact hfb
      | parseThrew => exact hfb
    | parseThrew =>
      cases a2 with
      | parsedOk rs => exact h2 rs rfl
      | callThrew => exact hfb
      | noJsonMatch => exact hfb
      | parseThrew => exact hfb
  unfold generateResolutionsRoute at hok
  split at hok
  · exact Except.noConfusion hok
  · dsimp only at hok
    split at hok
    · exact Except.noConfusion hok
    · split at hok
      · exact Except.noConfusion hok
      · split at hok
        · rename_i e hcr
          exact Except.noConfusion hok
        · rename_i saved1 s1 hcr
          have hsv : saved1 = saved := Except.ok.inj hok
          rw [← hsv]
          obtain ⟨hmap1, hmap2, hlen⟩ := createResolutions_ok_map s _ saved1 s1 hcr
          obtain ⟨hL, hS, hR⟩ := hai ((getRoomMessages s roomId).map
            (fun mg => jsOrStr mg.text (jsOrStr mg.transcript "")))
          refine ⟨?_, ?_, ?_⟩
          · rw [hlen, List.length_map]
            exact hL
          · intro r hr
            have hmem : r.aiScore ∈ saved1.map (fun r => r.aiScore) :=
              List.mem_map_of_mem _ hr
            rw [hmap1, List.map_map] at hmem
            obtain ⟨d, hd, hde⟩ := List.mem_map.mp hmem
            have hde' : d.ai_score = r.aiScore := hde
            rw [← hde']
            exact hS d hd
          · have e1 : (saved1.filter (fun r => r.suggestedBest)).length =
                List.countP (fun b => b) (saved1.map (fun r => r.suggestedBest)) := by
              rw [List.countP_map, ← List.countP_eq_length_filter]
              rfl
            rw [e1, hmap2, List.map_map, List.countP_map]
            rw [← List.countP_eq_length_filter] at hR
            exact hR

/-- Witness for the amended C2: through the fallback path (both calls fail)
the delivered batch is the well-formed fallback triple. -/
theorem generation_wellformed_of_conforming_witness :
    WellFormedDelivered
      [{ id := "res-0", roomId := "r1", title := "Compromise Solution",
         description := "Both parties meet in the middle by making equal concessions to reach a balanced agreement that addresses core concerns.",
         aiScore := 80, suggestedBest := true },
       { id := "res-1", roomId := "r1", title := "Time-Based Trial",
         description := "Implement one approach for a defined trial period, then evaluate and adjust based on results before committing long-term.",
         aiScore := 70, suggestedBest := false },
       { id := "res-2", roomId := "r1", title := "Alternative Perspective",
         description := "Explore a third option that neither party initially considered, potentially solving the underlying issue differently.",
         aiScore := 65, suggestedBest := false }] :=
  generation_wellformed_of_conforming storeFourMsgs [] "u1" "r1" 0 .callThrew .callThrew
    (fun rs h => nomatch h) (fun rs h => nomatch h) _ rfl

/-! ## Claim C1 -/

/-- Finding a row by id after updating all rows with that id commutes with
the update, provided the update preserves ids. -/
theorem find?_mapRoomRows (l : List Room) (rid : String) (f : Room → Room)
    (hf : ∀ r, (f r).id = r.id) :
    (l.map (fun r => if r.id = rid then f r else r)).find? (fun r => r.id == rid) =
      (l.find? (fun r => r.id == rid)).map f := by
  induction l with
  | nil => rfl
  | cons a l ih =>
    by_cases ha : a.id = rid
    · simp only [List.map_cons, if_pos ha]
      rw [List.find?_cons_of_pos _ (by simp [hf a, ha])]
      rw [List.find?_cons_of_pos _ (by simp [ha])]
      rfl
    · simp only [List.map_cons, if_neg ha]
      rw [List.find?_cons_of_neg _ (by simp [ha])]
      rw [List.find?_cons_of_neg _ (by simp [ha])]
      exact ih

/-- Fetching a room after a status update returns the updated row. -/
theorem getRoomById_updateRoomStatus (s : Storage) (rid status : String)
    (ts : Option Nat) :
    getRoomById (updateRoomStatus s rid status ts) rid =
      (getRoomById s rid).map (fun r => { r with status := status, resolvedAt := ts }) := by
  unfold getRoomById updateRoomStatus mapRoomRows
  exact find?_mapRoomRows s.rooms rid _ (fun r => rfl)

/-- C1: after a successful vote, the room transitions to resolved (status set
and resolved-timestamp set) and the terminal room_resolved event carrying the
agreed resolution is broadcast exactly when the room then holds two votes
referencing the same resolution; otherwise the room row — in particular an
active status — is unchanged and no room_resolved event is emitted. -/
theorem vote_convergence_resolves (s : Storage) (userId roomId resolutionId : String)
    (now : Nat) (v : Vote) (s2 : Storage) (evs : List Event)
    (h : voteRoute s userId roomId resolutionId now = (.ok v, s2, evs)) :
    (∀ w1 w2, getRoomVotes s2 roomId = [w1, w2] → w1.resolutionId = w2.resolutionId →
       (∃ room2, getRoomById s2 roomId = some room2 ∧ room2.status = "resolved" ∧
          room2.resolvedAt = some now) ∧
       (∃ res, getResolutionById s2 resolutionId = some res ∧ res.id = resolutionId ∧
          Event.roomResolved (some res) ∈ evs)) ∧
    ((¬ ∃ w1 w2, getRoomVotes s2 roomId = [w1, w2] ∧ w1.resolutionId = w2.resolutionId) →
       getRoomById s2 roomId = getRoomById s roomId ∧
       ∀ o, Event.roomResolved o ∉ evs) := by
  unfold voteRoute at h
  split at h
  · exact Except.noConfusion (congrArg Prod.fst h)
  · rename_i hmemf
    have hmem : ensureRoomMember s roomId userId = true := by
      cases hE : ensureRoomMember s roomId userId with
      | true => rfl
      | false => exact absurd hE hmemf
    split at h
    · exact Except.noConfusion (congrArg Prod.fst h)
    · rename_i hvnone
      split at h
      · exact Except.noConfusion (congrArg Prod.fst h)
      · rename_i vote s1 hcv
        obtain ⟨hs1, hvr, hvu, hvid, hres⟩ :=
          createVote_ok_shape s roomId resolutionId userId vote s1 hcv
        have hrooms1 : getRoomById s1 roomId = getRoomById s roomId := by
          rw [hs1]
          rfl
        have hress1 : getResolutionById s1 resolutionId = getResolutionById s resolutionId := by
          rw [hs1]
          rfl
        split at h
        · rename_i v1 v2 hgv
          split at h
          · rename_i hsame
            dsimp only at h
            rw [Prod.ext_iff] at h
            obtain ⟨hfst, hrest⟩ := h
            rw [Prod.ext_iff] at hrest
            obtain ⟨hsnd, hthd⟩ := hrest
            subst hsnd
            subst hthd
            obtain ⟨res, hres'⟩ := Option.isSome_iff_exists.mp hres
            have hresid : res.id = resolutionId := by
              have hfind := hres'
              unfold getResolutionById at hfind
              have hbeq := List.find?_some hfind
              exact eq_of_beq hbeq
            have hres2 : getResolutionById
                (updateRoomStatus s1 roomId "resolved" (some now)) resolutionId = some res := by
              have he : getResolutionById
                  (updateRoomStatus s1 roomId "resolved" (some now)) resolutionId =
                  getResolutionById s1 resolutionId := rfl
              rw [he, hress1]
              exact hres'
            constructor
            · intro w1 w2 hlist hsame2
              constructor
              · obtain ⟨room, hroom⟩ := ensureRoomMember_exists s roomId userId hmem
                refine ⟨{ room with status := "resolved", resolvedAt := some now }, ?_, rfl, rfl⟩
                rw [getRoomById_updateRoomStatus, hrooms1, hroom]
                rfl
              · refine ⟨res, hres2, hresid, ?_⟩
                rw [hres2]
                simp
            · intro hneg
              exfalso
              apply hneg
              refine ⟨v1, v2, ?_, hsame⟩
              have he : getRoomVotes (updateRoomStatus s1 roomId "resolved" (some now)) roomId =
                  getRoomVotes s1 roomId := rfl
              rw [he, hgv]
          · rename_i hdiff
            rw [Prod.ext_iff] at h
            obtain ⟨hfst, hrest⟩ := h
            rw [Prod.ext_iff] at hrest
            obtain ⟨hsnd, hthd⟩ := hrest
            subst hsnd
            subst hthd
            constructor
            · intro w1 w2 hlist hsame2
              exfalso
              rw [hgv] at hlist
              injection hlist with he1 hrest2
              injection hrest2 with he2 hrest3
              apply hdiff
              rw [he1, he2]
              exact hsame2
            · intro hneg
              refine ⟨hrooms1, ?_⟩
              intro o hmem2
              simp at hmem2
        · rename_i hnl
          rw [Prod.ext_iff] at h
          obtain ⟨hfst, hrest⟩ := h
          rw [Prod.ext_iff] at hrest
          obtain ⟨hsnd, hthd⟩ := hrest
          subst hsnd
          subst hthd
          constructor
          · intro w1 w2 hlist hsame2
            exact absurd hlist (hnl w1 w2)
          · intro hneg
            refine ⟨hrooms1, ?_⟩
            intro o hmem2
            simp at hmem2

/-- Witness for C1: u1's vote matching u2's earlier vote resolves room r1 —
the stored room row becomes resolved with the timestamp set, and the
room_resolved event carries the agreed resolution resX. -/
theorem vote_convergence_resolves_witness :
    (∃ room2, getRoomById
        ⟨["u1", "u2"],
         [⟨"r1", "AB12CD", "u1", some "u1", some "u2", "resolved", some 42⟩],
         [], [⟨"resX", "r1", "T", "D", 80, true⟩],
         [⟨"vote-z", "r1", "resX", "u2"⟩, ⟨"vote-1", "r1", "resX", "u1"⟩]⟩ "r1" =
        some room2 ∧ room2.status = "resolved" ∧ room2.resolvedAt = some 42) ∧
    (∃ res, getResolutionById
        ⟨["u1", "u2"],
         [⟨"r1", "AB12CD", "u1", some "u1", some "u2", "resolved", some 42⟩],
         [], [⟨"resX", "r1", "T", "D", 80, true⟩],
         [⟨"vote-z", "r1", "resX", "u2"⟩, ⟨"vote-1", "r1", "resX", "u1"⟩]⟩ "resX" =
        some res ∧ res.id = "resX" ∧
      Event.roomResolved (some res) ∈
        [Event.voteCast "u1" "resX",
         Event.roomResolved (some ⟨"resX", "r1", "T", "D", 80, true⟩)]) :=
  (vote_convergence_resolves storeOneVote "u1" "r1" "resX" 42
      ⟨"vote-1", "r1", "resX", "u1"⟩
      ⟨["u1", "u2"],
       [⟨"r1", "AB12CD", "u1", some "u1", some "u2", "resolved", some 42⟩],
       [], [⟨"resX", "r1", "T", "D", 80, true⟩],
       [⟨"vote-z", "r1", "resX", "u2"⟩, ⟨"vote-1", "r1", "resX", "u1"⟩]⟩
      [Event.voteCast "u1" "resX",
       Event.roomResolved (some ⟨"resX", "r1", "T", "D", 80, true⟩)] rfl).1
    ⟨"vote-z", "r1", "resX", "u2"⟩ ⟨"vote-1", "r1", "resX", "u1"⟩ (by decide) rfl
